import Mathlib

/-!
Verification of the data acquisition, caching and scheduling subsystem of the
`sora` ETF tracker, via a shallow embedding of the Python sources
(`src/scheduler/scheduler.py`, `src/data/cache.py`, `src/data/fetcher.py`)
into Lean 4.

Conventions of the embedding:
* wall-clock instants and durations are exact rationals (`ℚ`) or integers,
  in the unit natural to each function (minutes for the scheduler,
  hours for the disk cache, seconds for rate limiting);
* Python `Optional` fields become `Option`; Python truthiness of an
  `Optional[int]` (`None` and `0` both falsy) is modelled explicitly;
* fallible network calls are driven by explicit oracles so that a theorem
  can quantify over every provider behaviour;
* functions that in Python mutate `self` are written in explicit
  state-passing style, returning the new state next to the result.
-/

namespace Sora

/-! ## Scheduler (`src/scheduler/scheduler.py`) -/

/-- Task lifecycle states, mirroring the `TaskStatus` enum. -/
inductive TaskStatus
  | pending
  | running
  | completed
  | failed
  | cancelled
deriving DecidableEq, Repr

/-- The scheduling-relevant fields of the `ScheduledTask` dataclass.
Times are integer minutes.  `interval_minutes = none` mirrors Python `None`;
the source treats `0` the same as `None` because it tests truthiness. -/
structure ScheduledTask where
  task_id : String
  next_run : Option Int
  interval_minutes : Option Nat
  run_count : Nat
  max_runs : Option Nat
  status : TaskStatus
  last_run : Option Int
deriving DecidableEq, Repr

/-- Python truthiness of an `Optional[int]`: `None` and `0` are falsy. -/
def optNatTruthy : Option Nat → Bool
  | none => false
  | some n => n != 0

/-- Model of `TaskScheduler._should_run_task` (scheduler.py lines 192-211).  The source
can mutate the task (it marks a task `COMPLETED` when its run ceiling is
reached), so the embedding returns the possibly updated task next to the
boolean decision. -/
def shouldRunTask (task : ScheduledTask) (now : Int) : Bool × ScheduledTask :=
  if task.status = .running then (false, task)
  else if task.status = .cancelled then (false, task)
  else
    match task.next_run with
    | none => (false, task)
    | some nr =>
      if nr ≤ now then
        if optNatTruthy task.max_runs ∧ task.max_runs.getD 0 ≤ task.run_count then
          (false, { task with status := .completed })
        else
          (true, task)
      else (false, task)

/-- Model of `TaskScheduler._execute_task` (scheduler.py lines 213-249).
`handlerRaises` is the oracle for "the dispatched handler threw an
exception"; the source catches it and marks the task `FAILED`.  When
`interval_minutes` is truthy the task is rescheduled to `now + interval`
and reset to `PENDING`; otherwise it is left in its terminal state. -/
def executeTask (task : ScheduledTask) (now : Int) (handlerRaises : Bool) : ScheduledTask :=
  let t1 : ScheduledTask :=
    { task with status := .running, last_run := some now, run_count := task.run_count + 1 }
  let t2 : ScheduledTask :=
    if handlerRaises then { t1 with status := .failed } else { t1 with status := .completed }
  if optNatTruthy t2.interval_minutes then
    { t2 with next_run := some (now + (t2.interval_minutes.getD 0 : Nat)),
              status := .pending }
  else t2

/-- One task's treatment inside one iteration of `_run_scheduler`
(scheduler.py lines 174-184): tasks that `_should_run_task` approves are
executed, the rest keep whatever `_should_run_task` left them as. -/
def stepTask (now : Int) (raises : String → Bool) (task : ScheduledTask) : ScheduledTask :=
  let (run, t') := shouldRunTask task now
  if run then executeTask t' now (raises t'.task_id) else t'

/-- One full polling iteration of the scheduler loop over the task registry.
`_execute_task` only touches the task it is given, so iterating the registry
is a `map`. -/
def schedulerStep (tasks : List ScheduledTask) (now : Int) (raises : String → Bool) :
    List ScheduledTask :=
  tasks.map (stepTask now raises)

/-- A concrete one-shot task: `interval = 0`, no run ceiling, due at time 0. -/
def oneShotTask : ScheduledTask :=
  { task_id := "once"
  , next_run := some 0
  , interval_minutes := some 0
  , run_count := 0
  , max_runs := none
  , status := .pending
  , last_run := none }

/-! ## Data model (`src/data/fetcher.py` dataclasses) -/

/-- The `FundData` dataclass.  Prices are exact rationals (standing for the
Python floats), `last_update` is a timestamp. -/
structure FundData where
  code : String
  name : String
  current_price : ℚ
  previous_close : ℚ
  change_percent : ℚ
  volume : ℤ
  market_cap : Option ℚ
  currency : String
  last_update : ℚ
deriving DecidableEq, Repr

/-- One row of the normalised historical DataFrame: date index plus the
`Open`/`High`/`Low`/`Close`/`Volume` columns. -/
structure Bar where
  date : ℚ
  bOpen : ℚ
  bHigh : ℚ
  bLow : ℚ
  bClose : ℚ
  bVol : ℚ
deriving DecidableEq, Repr

/-- The `HistoricalData` dataclass: the DataFrame becomes the ordered bar
list. -/
structure HistoricalData where
  code : String
  data : List Bar
  start_date : ℚ
  end_date : ℚ
  period : String
deriving DecidableEq, Repr

/-! ## Cache (`src/data/cache.py`)

The JSON payload written by `_save_json_cache` is modelled as an association
list of `JVal` values; a persisted entry is a `(payload, mtime)` pair, with
`mtime` the file modification time that `_is_cache_valid` inspects. -/

/-- JSON-level values as the cache stores them.  `timeStr` stands for an
ISO-formatted timestamp string (`datetime.isoformat`), which
`datetime.fromisoformat` inverts losslessly. -/
inductive JVal
  | null
  | str (s : String)
  | num (q : ℚ)
  | timeStr (t : ℚ)
deriving DecidableEq, Repr

/-- Dictionary lookup on the decoded JSON object. -/
def jGet (j : List (String × JVal)) (k : String) : Option JVal :=
  (j.find? (fun p => p.1 == k)).map Prod.snd

/-- A stored value read back where the code expects a `str`; any other shape
would build an ill-typed `FundData` in Python and is modelled as a parse
failure. -/
def jStr : JVal → Option String
  | .str s => some s
  | _ => none

/-- Python `float(...)` applied to a decoded JSON value: numbers pass
through, `None`/objects raise (modelled as `none`). -/
def pyFloat : JVal → Option ℚ
  | .num q => some q
  | _ => none

/-- Python `int(...)` applied to a decoded JSON value: truncates a number
toward zero, raises on anything else. -/
def pyInt : JVal → Option ℤ
  | .num q => some (Int.tdiv q.num (q.den : ℤ))
  | _ => none

/-- Python `datetime.fromisoformat` applied to a decoded JSON value. -/
def fromIso : JVal → Option ℚ
  | .timeStr t => some t
  | _ => none

/-- The dictionary `cache_current_data` serialises (cache.py lines 151-172),
written at wall-clock time `cacheNow`. -/
def serializeCurrent (fd : FundData) (cacheNow : ℚ) : List (String × JVal) :=
  [ ("code", .str fd.code)
  , ("name", .str fd.name)
  , ("current_price", .num fd.current_price)
  , ("previous_close", .num fd.previous_close)
  , ("change_percent", .num fd.change_percent)
  , ("volume", .num (fd.volume : ℚ))
  , ("market_cap", match fd.market_cap with | some q => .num q | none => .null)
  , ("currency", .str fd.currency)
  , ("last_update", .timeStr fd.last_update)
  , ("cache_time", .timeStr cacheNow) ]

/-- The reconstruction done by `get_cached_current_data` (cache.py lines
181-203): required keys raise `KeyError` when absent (caught, giving `None`),
`market_cap` and `currency` go through `dict.get`, timestamps through
`fromisoformat`. -/
def deserializeCurrent (j : List (String × JVal)) : Option FundData :=
  if j.isEmpty then none
  else do
    let code ← jGet j "code" >>= jStr
    let name ← jGet j "name" >>= jStr
    let cp ← jGet j "current_price" >>= pyFloat
    let pc ← jGet j "previous_close" >>= pyFloat
    let chg ← jGet j "change_percent" >>= pyFloat
    let vol ← jGet j "volume" >>= pyInt
    let lu ← jGet j "last_update" >>= fromIso
    let mc : Option ℚ := match jGet j "market_cap" with
      | some (JVal.num q) => some q
      | _ => none
    let cur : String := match jGet j "currency" with
      | some (JVal.str s) => s
      | _ => "USD"
    pure { code := code, name := name, current_price := cp, previous_close := pc,
           change_percent := chg, volume := vol, market_cap := mc, currency := cur,
           last_update := lu }

/-- Model of `cache_current_data`: the persisted entry for the `current` namespace,
written at time `now` (the file's mtime is the write instant). -/
def cacheCurrentData (fd : FundData) (now : ℚ) : List (String × JVal) × ℚ :=
  (serializeCurrent fd now, now)

/-- Model of `get_cached_current_data`: `_is_cache_valid` first (file exists and
`mtime > now - expire_hours`), then decode.  `entry = none` is a missing
file. -/
def getCachedCurrentData (entry : Option (List (String × JVal) × ℚ))
    (now ttlHours : ℚ) : Option FundData :=
  match entry with
  | none => none
  | some (payload, mtime) =>
    if now - ttlHours < mtime then deserializeCurrent payload else none

/-- Model of `cache_fund_info`: the info dictionary plus a `cache_time` field,
written at time `now`. -/
def cacheFundInfo (info : List (String × JVal)) (now : ℚ) :
    List (String × JVal) × ℚ :=
  (info ++ [("cache_time", JVal.timeStr now)], now)

/-- Model of `get_cached_fund_info`: `_is_cache_valid`, then the raw dictionary. -/
def getCachedFundInfo (entry : Option (List (String × JVal) × ℚ))
    (now ttlHours : ℚ) : Option (List (String × JVal)) :=
  match entry with
  | none => none
  | some (payload, mtime) =>
    if now - ttlHours < mtime then some payload else none

/-- The metadata dictionary pickled next to the DataFrame by
`cache_historical_data` (cache.py lines 205-227). -/
structure HistMeta where
  code : String
  start_date : ℚ
  end_date : ℚ
  period : String
  cache_time : ℚ
deriving DecidableEq, Repr

/-- Model of `cache_historical_data`: pickles `{metadata, data}`, mtime = write
instant. -/
def cacheHistoricalData (hd : HistoricalData) (now : ℚ) :
    (HistMeta × List Bar) × ℚ :=
  (({ code := hd.code, start_date := hd.start_date, end_date := hd.end_date,
      period := hd.period, cache_time := now }, hd.data), now)

/-- Model of `get_cached_historical_data` (cache.py lines 229-262).  Note: unlike the
other two namespaces the source checks only that the pickle file exists —
`_is_cache_valid` is never called — so `_now` and `_ttlHours` are accepted
but ignored, exactly as the read ignores the clock.  The `period` guard
mirrors `if period and metadata.get(period) != period` (Python truthiness:
`None` and `""` skip the check). -/
def getCachedHistoricalData (entry : Option ((HistMeta × List Bar) × ℚ))
    (period : Option String) (_now _ttlHours : ℚ) : Option HistoricalData :=
  match entry with
  | none => none
  | some ((meta, bars), _mtime) =>
    if (match period with
        | some p => p != "" && meta.period != p
        | none => false) then none
    else some { code := meta.code, data := bars, start_date := meta.start_date,
                end_date := meta.end_date, period := meta.period }

/-! ### Size-budget cleanup (`cleanup_cache`, cache.py lines 334-375) -/

/-- One on-disk cache file as the cleanup sees it: path, size in MB, and
modification time (hours, the unit of `expire_hours`). -/
structure CacheFile where
  path : String
  size : ℚ
  mtime : ℚ
deriving DecidableEq, Repr

/-- Model of `clear_expired_cache` (cache.py lines 292-313): deletes every file that
fails `_is_cache_valid`, i.e. keeps files with `mtime > now - ttl`. -/
def clearExpiredCache (files : List CacheFile) (now ttlHours : ℚ) :
    List CacheFile :=
  files.filter (fun f => now - ttlHours < f.mtime)

/-- Total size in MB, as `get_cache_size` computes it. -/
def totalSize (files : List CacheFile) : ℚ :=
  (files.map (fun f => f.size)).sum

/-- The mtime ordering used for `all_files.sort()` (the Python sort key is
the `(mtime, path)` tuple; only the mtime component matters for the eviction
order property). -/
def mtimeLE (a b : CacheFile) : Prop := a.mtime ≤ b.mtime

instance : DecidableRel mtimeLE := fun a b => inferInstanceAs (Decidable (a.mtime ≤ b.mtime))

instance : IsTotal CacheFile mtimeLE := ⟨fun a b => le_total a.mtime b.mtime⟩

instance : IsTrans CacheFile mtimeLE := ⟨fun _ _ _ h h' => le_trans h h'⟩

/-- Model of `all_files.sort()`: ascending by modification time, oldest first. -/
def sortByMtime (files : List CacheFile) : List CacheFile :=
  files.insertionSort mtimeLE

/-- The deletion loop of `cleanup_cache`: walk the sorted list oldest first,
stopping as soon as the running total is within the 80% target; `total` is
the running `cache_sizes[total]`. -/
def evictOldest : List CacheFile → ℚ → ℚ → List CacheFile
  | [], _, _ => []
  | f :: rest, total, target =>
    if total ≤ target then f :: rest
    else evictOldest rest (total - f.size) target

/-- Model of `cleanup_cache(force)`: expire first, then — only if `force` is set or
the total strictly exceeds the budget — delete oldest-by-mtime files until
the total is at most 80% of the budget.  Returns the surviving files. -/
def cleanupCache (files : List CacheFile) (now ttlHours maxSizeMb : ℚ)
    (force : Bool) : List CacheFile :=
  let fresh := clearExpiredCache files now ttlHours
  let total := totalSize fresh
  if force || maxSizeMb < total then
    evictOldest (sortByMtime fresh) total (maxSizeMb * (4 / 5))
  else fresh

/-! ## Fetcher (`src/data/fetcher.py`) -/

/-- The code-point ranges on which Python `str.isdigit` is true: the
characters with Unicode property Numeric_Type Decimal or Digit, as in the
Unicode database CPython bundles.  Beyond the ASCII decimal digits this
includes, e.g., the superscript and fullwidth digits and the decimal
digits of every script. -/
def pyDigitRanges : List (Nat × Nat) :=
  [ (0x30, 0x39), (0xB2, 0xB3), (0xB9, 0xB9), (0x660, 0x669),
    (0x6F0, 0x6F9), (0x7C0, 0x7C9), (0x966, 0x96F), (0x9E6, 0x9EF),
    (0xA66, 0xA6F), (0xAE6, 0xAEF), (0xB66, 0xB6F), (0xBE6, 0xBEF),
    (0xC66, 0xC6F), (0xCE6, 0xCEF), (0xD66, 0xD6F), (0xDE6, 0xDEF),
    (0xE50, 0xE59), (0xED0, 0xED9), (0xF20, 0xF29), (0x1040, 0x1049),
    (0x1090, 0x1099), (0x1369, 0x1371), (0x17E0, 0x17E9), (0x1810, 0x1819),
    (0x1946, 0x194F), (0x19D0, 0x19DA), (0x1A80, 0x1A89), (0x1A90, 0x1A99),
    (0x1B50, 0x1B59), (0x1BB0, 0x1BB9), (0x1C40, 0x1C49), (0x1C50, 0x1C59),
    (0x2070, 0x2070), (0x2074, 0x2079), (0x2080, 0x2089), (0x2460, 0x2468),
    (0x2474, 0x247C), (0x2488, 0x2490), (0x24EA, 0x24EA), (0x24F5, 0x24FD),
    (0x24FF, 0x24FF), (0x2776, 0x277E), (0x2780, 0x2788), (0x278A, 0x2792),
    (0xA620, 0xA629), (0xA8D0, 0xA8D9), (0xA900, 0xA909), (0xA9D0, 0xA9D9),
    (0xA9F0, 0xA9F9), (0xAA50, 0xAA59), (0xABF0, 0xABF9), (0xFF10, 0xFF19),
    (0x104A0, 0x104A9), (0x10A40, 0x10A43), (0x10D30, 0x10D39), (0x10E60, 0x10E68),
    (0x11052, 0x1105A), (0x11066, 0x1106F), (0x110F0, 0x110F9), (0x11136, 0x1113F),
    (0x111D0, 0x111D9), (0x112F0, 0x112F9), (0x11450, 0x11459), (0x114D0, 0x114D9),
    (0x11650, 0x11659), (0x116C0, 0x116C9), (0x11730, 0x11739), (0x118E0, 0x118E9),
    (0x11950, 0x11959), (0x11C50, 0x11C59), (0x11D50, 0x11D59), (0x11DA0, 0x11DA9),
    (0x16A60, 0x16A69), (0x16AC0, 0x16AC9), (0x16B50, 0x16B59), (0x1D7CE, 0x1D7FF),
    (0x1E140, 0x1E149), (0x1E2F0, 0x1E2F9), (0x1E950, 0x1E959), (0x1F100, 0x1F10A),
    (0x1FBF0, 0x1FBF9) ]

/-- Python's per-character `str.isdigit` test. -/
def pyCharIsDigit (c : Char) : Bool :=
  pyDigitRanges.any (fun r => r.1 ≤ c.toNat && c.toNat ≤ r.2)

/-- Model of `_validate_fund_code` (fetcher.py lines 112-125): Python
`fund_code.isdigit() and len(fund_code) == 6`, over the string's code
points.  Note `str.isdigit` accepts every Unicode digit character, not
only the ASCII decimal digits `0`-`9`. -/
def validateFundCode (code : String) : Bool :=
  code.data.all pyCharIsDigit && code.data.length == 6

/-- Model of `_apply_rate_limit` (fetcher.py lines 101-110).  `last` is
`self._last_request_time`, `now` the wall clock on entry (seconds).  The
function sleeps whatever remains of `delay` and stamps the time again, so
the instant at which the next network call fires and the stored
last-request time are both `now + sleep`. -/
def applyRateLimit (last now delay : ℚ) : ℚ × ℚ :=
  let sleepFor := if now - last < delay then delay - (now - last) else 0
  (now + sleepFor, now + sleepFor)

/-- One row of the provider's bulk ETF table, with the columns
`get_current_data`/`batch_get_current_data` read (`代码`, `名称`, `最新价`,
`昨收`, `涨跌幅`, `成交量`); `volume = none` models a NaN cell. -/
structure EtfRow where
  code : String
  name : String
  price : ℚ
  prevClose : ℚ
  changePct : ℚ
  volume : Option ℤ
deriving DecidableEq, Repr

/-- The in-memory bulk-list cache pair
(`self._etf_list_cache`, `self._etf_list_cache_time`). -/
structure EtfCacheState where
  cache : Option (List EtfRow)
  cacheTime : Option ℚ
deriving DecidableEq, Repr

/-- Constant `self._etf_cache_expire_hours = 6`. -/
def etfCacheExpireHours : ℚ := 6

/-- Model of `_get_etf_list_cached` (fetcher.py lines 661-695).  `net` is the outcome
of `ak.fund_etf_spot_em()` at this instant (`none` = the call raised).
Returns the list handed to the caller, the updated cache state, and the
number of bulk network calls made: 0 on a fresh-cache hit, 1 on any refresh
attempt (successful or not).  A failed refresh leaves the state untouched
and returns the last successful copy when one exists. -/
def getEtfListCached (st : EtfCacheState) (now : ℚ)
    (net : Option (List EtfRow)) :
    Option (List EtfRow) × EtfCacheState × Nat :=
  match st.cache, st.cacheTime with
  | some rows, some t =>
    if now - t < etfCacheExpireHours then (some rows, st, 0)
    else
      match net with
      | some fresh => (some fresh, ⟨some fresh, some now⟩, 1)
      | none => (some rows, st, 1)
  | _, _ =>
    match net with
    | some fresh => (some fresh, ⟨some fresh, some now⟩, 1)
    | none => (st.cache, st, 1)

/-- Model of the row selection `etf_df[etf_df[代码] == fund_code]` followed by `.iloc[0]`: the first
row carrying the symbol. -/
def lookupEtf (rows : List EtfRow) (code : String) : Option EtfRow :=
  rows.find? (fun r => r.code == code)

/-- Snapshot built from a bulk-list row (fetcher.py lines 209-228 and
429-446): `int(row[成交量])` when the cell is not NaN else `0`, no market
cap, CNY. -/
def fundDataOfRow (code : String) (row : EtfRow) (now : ℚ) : FundData :=
  { code := code
  , name := row.name
  , current_price := row.price
  , previous_close := row.prevClose
  , change_percent := row.changePct
  , volume := row.volume.getD 0
  , market_cap := none
  , currency := "CNY"
  , last_update := now }

/-- The fields of the metadata-only lookup that `get_current_data` uses. -/
structure FundInfo where
  name : String
  fund_type : String
deriving DecidableEq, Repr

/-- Outcome of one attempt of a provider call: a usable response, an
empty/`None` response, or a raised exception. -/
inductive NetOutcome (α : Type)
  | ok (a : α)
  | empty
  | raise
deriving DecidableEq, Repr

/-- The retry loop body of `get_fund_info` (fetcher.py lines 145-179),
with `remaining` iterations of `range(max_retries)` left and the current
`attempt` index; `oracle k` is the outcome of the k-th network attempt.
Returns the result, how many network attempts were made, and the backoff
sleeps performed in order (seconds).  The source sleeps `2**attempt` only
in the `except` branch and only while `attempt < max_retries - 1`: an empty
response is retried immediately with no sleep, and no sleep follows the
final attempt. -/
def getFundInfoGo (oracle : Nat → NetOutcome FundInfo) (maxRetries : Nat) :
    Nat → Nat → Option FundInfo × Nat × List ℕ
  | _, 0 => (none, 0, [])
  | attempt, remaining + 1 =>
    match oracle attempt with
    | .ok info => (some info, 1, [])
    | .empty =>
      let (r, n, s) := getFundInfoGo oracle maxRetries (attempt + 1) remaining
      (r, n + 1, s)
    | .raise =>
      let (r, n, s) := getFundInfoGo oracle maxRetries (attempt + 1) remaining
      if attempt + 1 < maxRetries then (r, n + 1, (2 ^ attempt) :: s)
      else (r, n + 1, s)

/-- Model of `get_fund_info` (fetcher.py lines 127-182): the in-process info cache is
consulted first, then the symbol format is validated, then the retry loop
runs. -/
def getFundInfo (infoCache : Option FundInfo) (code : String)
    (oracle : Nat → NetOutcome FundInfo) (maxRetries : Nat) :
    Option FundInfo × Nat × List ℕ :=
  match infoCache with
  | some info => (some info, 0, [])
  | none =>
    if validateFundCode code then getFundInfoGo oracle maxRetries 0 maxRetries
    else (none, 0, [])

/-- One attempt of the `get_current_data` retry loop (fetcher.py lines
198-253): consult the bulk list, look the symbol up in it, and on a missing
list or missing row fall back to a metadata-only degraded snapshot via
`get_fund_info`.  Returns the snapshot (if any), the updated bulk-list
state, and the number of network calls made during the attempt. -/
def getCurrentDataAttempt (st : EtfCacheState) (net : Option (List EtfRow))
    (infoCache : Option FundInfo) (oracle : Nat → NetOutcome FundInfo)
    (maxRetries : Nat) (code : String) (now : ℚ) :
    Option FundData × EtfCacheState × Nat :=
  let (etf, st', n1) := getEtfListCached st now net
  match etf.bind (fun rows => lookupEtf rows code) with
  | some row => (some (fundDataOfRow code row now), st', n1)
  | none =>
    let (info, n2, _) := getFundInfo infoCache code oracle maxRetries
    match info with
    | some i =>
      (some { code := code, name := i.name, current_price := 0,
              previous_close := 0, change_percent := 0, volume := 0,
              market_cap := none, currency := "CNY", last_update := now },
       st', n1 + n2)
    | none => (none, st', n1 + n2)

/-- The outer retry loop of `get_current_data`, with `fuel` iterations of
`range(max_retries)` left.  Returns the result, the final bulk-list state,
the total network calls, and the number of attempts consumed. -/
def getCurrentDataLoop (net : Option (List EtfRow))
    (infoCache : Option FundInfo) (oracle : Nat → NetOutcome FundInfo)
    (maxRetries : Nat) (code : String) (now : ℚ) :
    EtfCacheState → Nat → Option FundData × EtfCacheState × Nat × Nat
  | st, 0 => (none, st, 0, 0)
  | st, fuel + 1 =>
    match getCurrentDataAttempt st net infoCache oracle maxRetries code now with
    | (some fd, st', c) => (some fd, st', c, 1)
    | (none, st', c) =>
      let (r, st'', c2, a) :=
        getCurrentDataLoop net infoCache oracle maxRetries code now st' fuel
      (r, st'', c + c2, a + 1)

/-- Model of `get_current_data` (fetcher.py lines 184-261): the symbol format is
validated before anything else — an invalid code returns `None` with no
attempt and no network activity. -/
def getCurrentData (st : EtfCacheState) (net : Option (List EtfRow))
    (infoCache : Option FundInfo) (oracle : Nat → NetOutcome FundInfo)
    (maxRetries : Nat) (code : String) (now : ℚ) :
    Option FundData × EtfCacheState × Nat × Nat :=
  if validateFundCode code then
    getCurrentDataLoop net infoCache oracle maxRetries code now st maxRetries
  else (none, st, 0, 0)

/-- How one per-symbol worker of the fallback ends: `get_current_data`
returned data, returned `None`, or raised. -/
inductive PerSymbolOutcome
  | found (fd : FundData)
  | notFound
  | raises
deriving DecidableEq, Repr

/-- Model of `_batch_get_current_data_fallback` (fetcher.py lines 466-512): chunked
concurrent per-symbol calls.  A raise from a worker is caught around
`future.result()` and the symbol skipped; a `None` result is skipped;
chunking and completion order affect only timing, so the association list
is in request order. -/
def batchFallback (per : String → PerSymbolOutcome) (codes : List String) :
    List (String × FundData) :=
  codes.filterMap (fun c =>
    match per c with
    | .found fd => some (c, fd)
    | _ => none)

/-- The local demultiplexing loop of `batch_get_current_data` (fetcher.py
lines 420-454): invalid codes are skipped, codes missing from the list are
skipped, the rest become snapshots built from their row. -/
def batchFromRows (rows : List EtfRow) (codes : List String) (now : ℚ) :
    List (String × FundData) :=
  codes.filterMap (fun c =>
    if validateFundCode c then
      (lookupEtf rows c).map (fun r => (c, fundDataOfRow c r now))
    else none)

/-- Model of `batch_get_current_data` (fetcher.py lines 398-464): one bulk-list
consultation; if it yields no list the per-symbol fallback runs; exceptions
never escape (per-symbol errors are caught in the loop, anything else trips
the outer handler into the fallback).  The `Nat` counts bulk network
calls. -/
def batchGetCurrentData (st : EtfCacheState) (now : ℚ)
    (net : Option (List EtfRow)) (per : String → PerSymbolOutcome)
    (codes : List String) :
    List (String × FundData) × EtfCacheState × Nat :=
  let (etf, st', n) := getEtfListCached st now net
  match etf with
  | none => (batchFallback per codes, st', n)
  | some rows => (batchFromRows rows codes now, st', n)

/-! ### Concrete values used by counterexamples and witnesses -/

/-- A concrete recurring task, due and carrying a 30-minute interval. -/
def recurringTask : ScheduledTask :=
  { task_id := "rec", next_run := some 0, interval_minutes := some 30,
    run_count := 0, max_runs := none, status := .pending, last_run := none }
/-- A concrete one-shot task (interval `None`), due. -/
def oneOffTask : ScheduledTask :=
  { task_id := "one", next_run := some 0, interval_minutes := none,
    run_count := 0, max_runs := none, status := .pending, last_run := none }
/-- A concrete task not yet due at time 10. -/
def lateTask : ScheduledTask :=
  { task_id := "late", next_run := some 99, interval_minutes := some 30,
    run_count := 0, max_runs := none, status := .pending, last_run := none }
/-- A concrete historical series used in counterexamples. -/
def sampleHist : HistoricalData :=
  { code := "510300"
  , data := [{ date := 1, bOpen := 4, bHigh := 5, bLow := 3, bClose := 4, bVol := 100 }]
  , start_date := 1
  , end_date := 1
  , period := "60d" }
/-- A fresh 9 MB cache file. -/
def overfullFile : CacheFile := { path := "a", size := 9, mtime := 0 }
/-- Two fresh 6 MB files, the first older by mtime. -/
def fileA : CacheFile := { path := "a", size := 6, mtime := 0 }
/-- See `fileA`. -/
def fileB : CacheFile := { path := "b", size := 6, mtime := 1 }
/-- A concrete snapshot used by witnesses. -/
def demoFund : FundData :=
  { code := "510300", name := "沪深300ETF", current_price := 4,
    previous_close := 4, change_percent := 0, volume := 100,
    market_cap := none, currency := "CNY", last_update := 0 }
/-- A per-symbol oracle: one symbol resolves, one raises, the rest return
nothing. -/
def demoPerSymbol : String → PerSymbolOutcome := fun c =>
  if c == "510300" then PerSymbolOutcome.found demoFund
  else if c == "159915" then PerSymbolOutcome.raises
  else PerSymbolOutcome.notFound
/-- A concrete bulk-list row. -/
def demoRow : EtfRow :=
  { code := "510300", name := "沪深300ETF", price := 4, prevClose := 4,
    changePct := 0, volume := some 100 }
/-- An oracle whose every attempt raises. -/
def raiseOracle : Nat → NetOutcome FundInfo := fun _ => NetOutcome.raise
/-- An oracle whose every attempt returns an empty response. -/
def emptyOracle : Nat → NetOutcome FundInfo := fun _ => NetOutcome.empty

/-! ## Theorems -/

/-- Helper: when `_should_run_task` approves a task, it has not modified it
(the only mutation, marking the run ceiling reached, happens on a `false`
answer). -/
theorem shouldRunTask_true_eq (u : ScheduledTask) (now : Int)
    (h : (shouldRunTask u now).1 = true) : shouldRunTask u now = (true, u) := by
  unfold shouldRunTask at h ⊢
  split at h <;> simp_all
  split at h <;> simp_all
  split at h <;> simp_all
  split at h <;> simp_all
  split at h <;> simp_all

/-- C1 (code_bug): the spec says a one-shot task (`interval = 0`, no run
ceiling), once executed and `COMPLETED`, is never dispatched again; in the
source `_should_run_task` filters only `RUNNING` and `CANCELLED`, so the
completed task — whose `next_run` is still its original, past, due time —
is approved again on every subsequent polling iteration.  Concretely: the
task is due at time 0, runs at time 5 and completes, yet is approved again
at time 65 and has run twice after two loop iterations. -/
theorem c1_one_shot_redispatched :
    (shouldRunTask oneShotTask 5).1 = true ∧
    (executeTask oneShotTask 5 false).status = TaskStatus.completed ∧
    (shouldRunTask (executeTask oneShotTask 5 false) 65).1 = true ∧
    (schedulerStep (schedulerStep [oneShotTask] 5 (fun _ => false)) 65
        (fun _ => false)).map (fun t => t.run_count) = [2] := by
  decide

/-- C9 (confirmed): a dispatch of a task whose handler raises marks exactly
that task `FAILED`, reschedules it to `now + interval` and resets it to
`PENDING` when it carries a truthy interval (leaving it terminal
otherwise); a task the poll does not approve is left exactly as it was;
and the loop iteration processes the whole registry regardless (same
length, every entry mapped independently). -/
theorem c9_failing_task_isolation (tasks : List ScheduledTask) (now : Int)
    (raises : String → Bool) :
    (schedulerStep tasks now raises).length = tasks.length ∧
    (∀ u ∈ tasks, shouldRunTask u now = (false, u) →
      stepTask now raises u = u) ∧
    (∀ u : ScheduledTask, (shouldRunTask u now).1 = true →
      raises u.task_id = true →
      ((optNatTruthy u.interval_minutes = true →
        (stepTask now raises u).status = TaskStatus.pending ∧
        (stepTask now raises u).next_run
          = some (now + (u.interval_minutes.getD 0 : Nat)) ∧
        (stepTask now raises u).run_count = u.run_count + 1) ∧
       (optNatTruthy u.interval_minutes = false →
        (stepTask now raises u).status = TaskStatus.failed))) := by
  refine ⟨List.length_map _ _, ?_, ?_⟩
  · intro u _ h
    simp [stepTask, h]
  · intro u hrun hraise
    have heq := shouldRunTask_true_eq u now hrun
    constructor
    · intro htruthy
      simp [stepTask, heq, executeTask, hraise, htruthy]
    · intro hfalse
      simp [stepTask, heq, executeTask, hraise, hfalse]




/-- Witness for C9: a concrete recurring task (interval 30) with a raising
handler becomes `PENDING` with `next_run = 40`, a concrete one-shot task
with a raising handler becomes `FAILED`, and a concrete not-yet-due task is
untouched by the step. -/
theorem c9_failing_task_isolation_witness :
    (stepTask 10 (fun _ => true) recurringTask).status = TaskStatus.pending ∧
    (stepTask 10 (fun _ => true) recurringTask).next_run = some 40 ∧
    (stepTask 10 (fun _ => true) oneOffTask).status = TaskStatus.failed ∧
    stepTask 10 (fun _ => true) lateTask = lateTask := by
  have h := c9_failing_task_isolation [lateTask] 10 (fun _ => true)
  refine ⟨?_, ?_, ?_, ?_⟩
  · exact ((h.2.2 recurringTask (by decide) rfl).1 (by decide)).1
  · have := ((h.2.2 recurringTask (by decide) rfl).1 (by decide)).2.1
    simpa using this
  · exact (h.2.2 oneOffTask (by decide) rfl).2 (by decide)
  · exact h.2.1 lateTask (by simp) (by decide)

/-- Helper: the `current`-namespace serialisation round-trips through the
reader's coercions. -/
theorem deserialize_serialize (fd : FundData) (t : ℚ) :
    deserializeCurrent (serializeCurrent fd t) = some fd := by
  rcases fd with ⟨code, name, cp, pc, chg, vol, mc, cur, lu⟩
  cases mc <;>
    simp [serializeCurrent, deserializeCurrent, jGet, jStr, pyFloat, pyInt,
      fromIso, Int.tdiv_one]


/-- C2 counterexample: a `historical` entry written at time 0 is still
returned by a read at time 1000 hours with a 24-hour TTL — far past
`T + TTL` — because `get_cached_historical_data` checks only that the
pickle file exists and never consults `_is_cache_valid`. -/
theorem c2_historical_read_ignores_ttl :
    getCachedHistoricalData (some (cacheHistoricalData sampleHist 0))
        (some "60d") 1000 24 = some sampleHist ∧
    ¬ ((1000 : ℚ) - 0 < 24) := by
  constructor
  · rfl
  · norm_num

/-- C2 (corrected): TTL-on-every-read holds for the `current` and `info`
namespaces — an entry written at `tw` is returned while `now - tw < ttl`
and is a miss once `ttl ≤ now - tw`, the check re-evaluated from the
file's mtime on each read — but the `historical` namespace's read checks
only existence, so a historical entry is returned at any age. -/
theorem c2_ttl_by_namespace (fd : FundData) (info : List (String × JVal))
    (hd : HistoricalData) (tw now1 now2 ttl : ℚ)
    (h1 : now1 - tw < ttl) (h2 : ttl ≤ now2 - tw) :
    getCachedCurrentData (some (cacheCurrentData fd tw)) now1 ttl = some fd ∧
    getCachedCurrentData (some (cacheCurrentData fd tw)) now2 ttl = none ∧
    getCachedFundInfo (some (cacheFundInfo info tw)) now1 ttl
      = some (info ++ [("cache_time", JVal.timeStr tw)]) ∧
    getCachedFundInfo (some (cacheFundInfo info tw)) now2 ttl = none ∧
    getCachedHistoricalData (some (cacheHistoricalData hd tw)) (some hd.period)
        now2 ttl = some hd := by
  have hv1 : now1 - ttl < tw := by linarith
  have hv2 : ¬ (now2 - ttl < tw) := by linarith
  refine ⟨?_, ?_, ?_, ?_, ?_⟩
  · simp [getCachedCurrentData, cacheCurrentData, hv1, deserialize_serialize]
  · simp [getCachedCurrentData, cacheCurrentData, hv2]
  · simp [getCachedFundInfo, cacheFundInfo, hv1]
  · simp [getCachedFundInfo, cacheFundInfo, hv2]
  · simp [getCachedHistoricalData, cacheHistoricalData]

/-- Witness for C2 (amended): concrete entries written at time 0, read at
times 10 (inside a 24-hour TTL) and 30 (outside it). -/
theorem c2_ttl_by_namespace_witness :
    getCachedCurrentData
        (some (cacheCurrentData
          { code := "510300", name := "ETF", current_price := 4,
            previous_close := 4, change_percent := 0, volume := 100,
            market_cap := none, currency := "CNY", last_update := 0 } 0))
        10 24
      = some { code := "510300", name := "ETF", current_price := 4,
               previous_close := 4, change_percent := 0, volume := 100,
               market_cap := none, currency := "CNY", last_update := 0 } ∧
    getCachedCurrentData
        (some (cacheCurrentData
          { code := "510300", name := "ETF", current_price := 4,
            previous_close := 4, change_percent := 0, volume := 100,
            market_cap := none, currency := "CNY", last_update := 0 } 0))
        30 24 = none ∧
    getCachedFundInfo (some (cacheFundInfo [("name", JVal.str "ETF")] 0)) 30 24
      = none ∧
    getCachedHistoricalData (some (cacheHistoricalData sampleHist 0))
        (some sampleHist.period) 30 24 = some sampleHist := by
  have h := c2_ttl_by_namespace
    { code := "510300", name := "ETF", current_price := 4,
      previous_close := 4, change_percent := 0, volume := 100,
      market_cap := none, currency := "CNY", last_update := 0 }
    [("name", JVal.str "ETF")] sampleHist 0 10 30 24
    (by norm_num) (by norm_num)
  exact ⟨h.1, h.2.1, h.2.2.2.1, h.2.2.2.2⟩

/-- C8 (confirmed): a snapshot or series written via the cache's put
operations is returned, equal in every field (symbol, prices, timestamps,
and the ordered bar list), by an immediate get in the same namespace and
key, for any positive TTL. -/
theorem c8_put_get_roundtrip (fd : FundData) (hd : HistoricalData)
    (tw ttl : ℚ) (h : 0 < ttl) :
    getCachedCurrentData (some (cacheCurrentData fd tw)) tw ttl = some fd ∧
    getCachedHistoricalData (some (cacheHistoricalData hd tw)) (some hd.period)
        tw ttl = some hd := by
  have hv : tw - ttl < tw := by linarith
  constructor
  · simp [getCachedCurrentData, cacheCurrentData, hv, deserialize_serialize]
  · simp [getCachedHistoricalData, cacheHistoricalData]

/-- Witness for C8: a concrete snapshot (with a market cap, to exercise the
optional field) and the concrete series, written and read back at time 7
with a 24-hour TTL. -/
theorem c8_put_get_roundtrip_witness :
    getCachedCurrentData
        (some (cacheCurrentData
          { code := "159915", name := "创业板ETF", current_price := 2 + 1/5,
            previous_close := 2, change_percent := 1/10, volume := 31415,
            market_cap := some 1000000, currency := "CNY",
            last_update := 6 } 7)) 7 24
      = some { code := "159915", name := "创业板ETF", current_price := 2 + 1/5,
               previous_close := 2, change_percent := 1/10, volume := 31415,
               market_cap := some 1000000, currency := "CNY",
               last_update := 6 } ∧
    getCachedHistoricalData (some (cacheHistoricalData sampleHist 7))
        (some sampleHist.period) 7 24 = some sampleHist := by
  exact c8_put_get_roundtrip
    { code := "159915", name := "创业板ETF", current_price := 2 + 1/5,
      previous_close := 2, change_percent := 1/10, volume := 31415,
      market_cap := some 1000000, currency := "CNY", last_update := 6 }
    sampleHist 7 24 (by norm_num)

/-- Helper: total size of a cons. -/
theorem totalSize_cons (f : CacheFile) (l : List CacheFile) :
    totalSize (f :: l) = f.size + totalSize l := by
  simp [totalSize]

/-- Helper: the deletion loop removes a prefix of the (sorted) file list —
the survivors are a suffix. -/
theorem evictOldest_suffix (l : List CacheFile) (total target : ℚ) :
    List.IsSuffix (evictOldest l total target) l := by
  induction l generalizing total with
  | nil => simp [evictOldest]
  | cons f rest ih =>
    simp only [evictOldest]
    split
    · exact List.suffix_refl _
    · exact (ih _).trans (List.suffix_cons f rest)

/-- Helper: when entered with `total` equal to the true total, the deletion
loop drives the surviving total down to at most the target. -/
theorem evictOldest_le_target (l : List CacheFile) (total target : ℚ)
    (ht : 0 ≤ target) (htot : total = totalSize l) :
    totalSize (evictOldest l total target) ≤ target := by
  induction l generalizing total with
  | nil => simpa [evictOldest, totalSize] using ht
  | cons f rest ih =>
    simp only [evictOldest]
    split
    · next hle => rw [← htot]; exact hle
    · exact ih (total - f.size) (by rw [htot, totalSize_cons]; ring)

/-- Helper: sorting by mtime permutes the files, so the total is
unchanged. -/
theorem totalSize_sortByMtime (l : List CacheFile) :
    totalSize (sortByMtime l) = totalSize l := by
  unfold totalSize sortByMtime
  exact List.Perm.sum_eq (List.Perm.map _ (List.perm_insertionSort _ l))

/-- C4 (corrected): whenever the eviction pass actually triggers — `force`
is set, or the post-expiry total strictly exceeds the budget — the
surviving total is at most 80% of the budget and the deleted files form a
prefix of the mtime-ascending order: every removed file is at least as old
as every kept file.  (The original claim's unconditional 80% bound fails
when the total lies between 80% and 100% of the budget, see the
counterexample.) -/
theorem c4_eviction_to_target (files : List CacheFile) (now ttl budget : ℚ)
    (force : Bool) (hb : 0 ≤ budget)
    (htrig : force = true ∨ budget < totalSize (clearExpiredCache files now ttl)) :
    totalSize (cleanupCache files now ttl budget force) ≤ budget * (4 / 5) ∧
    ∃ removed,
      sortByMtime (clearExpiredCache files now ttl)
        = removed ++ cleanupCache files now ttl budget force ∧
      ∀ x ∈ removed, ∀ y ∈ cleanupCache files now ttl budget force,
        x.mtime ≤ y.mtime := by
  have hclean : cleanupCache files now ttl budget force
      = evictOldest (sortByMtime (clearExpiredCache files now ttl))
          (totalSize (clearExpiredCache files now ttl)) (budget * (4 / 5)) := by
    rcases htrig with h | h
    · simp [cleanupCache, h]
    · simp [cleanupCache, h]
  constructor
  · rw [hclean]
    exact evictOldest_le_target _ _ _ (by positivity)
      (totalSize_sortByMtime _).symm
  · obtain ⟨removed, hrem⟩ :=
      evictOldest_suffix (sortByMtime (clearExpiredCache files now ttl))
        (totalSize (clearExpiredCache files now ttl)) (budget * (4 / 5))
    refine ⟨removed, ?_, ?_⟩
    · rw [hclean]; exact hrem.symm
    · have hsort : List.Pairwise mtimeLE
          (sortByMtime (clearExpiredCache files now ttl)) :=
        List.sorted_insertionSort mtimeLE (clearExpiredCache files now ttl)
      rw [← hrem] at hsort
      intro x hx y hy
      rw [hclean] at hy
      exact (List.pairwise_append.mp hsort).2.2 x hx y hy


/-- C4 counterexample: with a 10 MB budget and a single fresh 9 MB file,
`cleanup_cache(force=False)` triggers no eviction at all (9 ≤ 10), so the
resulting total, 9 MB, exceeds the 80% target of 8 MB — refuting the
claim's unconditional "total ≤ 80% of budget" postcondition. -/
theorem c4_between_target_and_budget_not_evicted :
    cleanupCache [overfullFile] 0 24 10 false = [overfullFile] ∧
    ¬ totalSize (cleanupCache [overfullFile] 0 24 10 false) ≤ 10 * (4 / 5) := by
  have h1 : cleanupCache [overfullFile] 0 24 10 false = [overfullFile] := by
    norm_num [cleanupCache, clearExpiredCache, totalSize, overfullFile]
  refine ⟨h1, ?_⟩
  rw [h1]
  norm_num [totalSize, overfullFile]



/-- Witness for C4 (amended): two fresh 6 MB files against a 10 MB budget
do trigger eviction (12 > 10), and the conclusion holds concretely. -/
theorem c4_eviction_to_target_witness :
    totalSize (cleanupCache [fileA, fileB] 2 24 10 false) ≤ 10 * (4 / 5) ∧
    ∃ removed,
      sortByMtime (clearExpiredCache [fileA, fileB] 2 24)
        = removed ++ cleanupCache [fileA, fileB] 2 24 10 false ∧
      ∀ x ∈ removed, ∀ y ∈ cleanupCache [fileA, fileB] 2 24 10 false,
        x.mtime ≤ y.mtime :=
  c4_eviction_to_target [fileA, fileB] 2 24 10 false (by norm_num)
    (Or.inr (by norm_num [clearExpiredCache, totalSize, fileA, fileB]))

/-- Helper: the key list of the fallback's result is exactly the requested
codes whose per-symbol call produced data, in request order. -/
theorem batchFallback_keys (per : String → PerSymbolOutcome)
    (codes : List String) :
    (batchFallback per codes).map Prod.fst
      = codes.filter (fun c => match per c with
          | PerSymbolOutcome.found _ => true
          | _ => false) := by
  induction codes with
  | nil => rfl
  | cons c rest ih =>
    simp only [batchFallback, List.filterMap_cons, List.filter_cons] at ih ⊢
    cases per c <;> simp_all

/-- C3 (confirmed): when the bulk list yields nothing, `batch_get_current`
delegates to the per-symbol fallback, whose key set is exactly the codes
whose individual call produced data — a raising or `None`-returning worker
only loses its own symbol; in particular an all-failing batch yields the
empty map rather than an error, and no exception path escapes (every
branch of the model is a returned value). -/
theorem c3_fallback_exact_subset (st : EtfCacheState) (now : ℚ)
    (net : Option (List EtfRow)) (per : String → PerSymbolOutcome)
    (codes : List String)
    (hbulk : (getEtfListCached st now net).1 = none) :
    (batchGetCurrentData st now net per codes).1 = batchFallback per codes ∧
    ((batchGetCurrentData st now net per codes).1).map Prod.fst
      = codes.filter (fun c => match per c with
          | PerSymbolOutcome.found _ => true
          | _ => false) := by
  rcases hE : getEtfListCached st now net with ⟨etf, st2, n⟩
  rw [hE] at hbulk
  simp only at hbulk
  subst hbulk
  have hres : (batchGetCurrentData st now net per codes).1
      = batchFallback per codes := by
    simp [batchGetCurrentData, hE]
  exact ⟨hres, by rw [hres]; exact batchFallback_keys per codes⟩



/-- Witness for C3: bulk call failing on a cold cache; of three requested
symbols one resolves, one raises, one is absent — the result's key list is
exactly the resolving one. -/
theorem c3_fallback_exact_subset_witness :
    ((batchGetCurrentData ⟨none, none⟩ 0 none demoPerSymbol
        ["510300", "159915", "000001"]).1).map Prod.fst = ["510300"] := by
  have h := c3_fallback_exact_subset ⟨none, none⟩ 0 none demoPerSymbol
    ["510300", "159915", "000001"] rfl
  rw [h.2]
  rfl

/-- C5 (confirmed): starting from a cold in-memory list, a first batch call
whose bulk fetch succeeds makes exactly one bulk network call and stores
the list with its fetch time; a second batch call issued within the 6-hour
TTL makes zero bulk calls and is served entirely from the stored list,
whatever the network would have answered; and a refresh attempt that fails
after the TTL has expired returns the last successful copy instead of an
error. -/
theorem c5_bulk_list_reused_within_ttl (rows : List EtfRow) (t0 t1 : ℚ)
    (per : String → PerSymbolOutcome) (codes codes2 : List String)
    (net2 : Option (List EtfRow))
    (hfresh : t1 - t0 < etfCacheExpireHours) :
    (batchGetCurrentData ⟨none, none⟩ t0 (some rows) per codes).2.2 = 1 ∧
    (batchGetCurrentData ⟨none, none⟩ t0 (some rows) per codes).2.1
      = ⟨some rows, some t0⟩ ∧
    (batchGetCurrentData ⟨some rows, some t0⟩ t1 net2 per codes2).2.2 = 0 ∧
    (batchGetCurrentData ⟨some rows, some t0⟩ t1 net2 per codes2).1
      = batchFromRows rows codes2 t1 ∧
    (∀ t2, etfCacheExpireHours ≤ t2 - t0 →
      getEtfListCached ⟨some rows, some t0⟩ t2 none
        = (some rows, ⟨some rows, some t0⟩, 1)) := by
  refine ⟨rfl, rfl, ?_, ?_, ?_⟩
  · simp [batchGetCurrentData, getEtfListCached, hfresh]
  · simp [batchGetCurrentData, getEtfListCached, hfresh]
  · intro t2 h2
    simp only [getEtfListCached]
    rw [if_neg (not_lt.mpr h2)]


/-- Witness for C5: the concrete two-call scenario at times 0 and 1 (inside
the 6-hour TTL), plus a failed refresh at time 10 (outside it) returning
the stale copy. -/
theorem c5_bulk_list_reused_within_ttl_witness :
    (batchGetCurrentData ⟨none, none⟩ 0 (some [demoRow])
        (fun _ => PerSymbolOutcome.notFound) ["510300"]).2.2 = 1 ∧
    (batchGetCurrentData ⟨some [demoRow], some 0⟩ 1 none
        (fun _ => PerSymbolOutcome.notFound) ["510300"]).2.2 = 0 ∧
    getEtfListCached ⟨some [demoRow], some 0⟩ 10 none
      = (some [demoRow], ⟨some [demoRow], some 0⟩, 1) := by
  have h := c5_bulk_list_reused_within_ttl [demoRow] 0 1
    (fun _ => PerSymbolOutcome.notFound) ["510300"] ["510300"] none
    (by norm_num [etfCacheExpireHours])
  exact ⟨h.1, h.2.2.1, h.2.2.2.2 10 (by norm_num [etfCacheExpireHours])⟩

/-- C6 counterexample: the string of six superscript twos is not six
decimal digits (`Char.isDigit`, the ASCII decimal test, fails on it), yet
it passes the program's `isdigit`-based validation; on a cold bulk list
with the provider down, `get_current_data` then makes 12 network call
attempts over 3 retry attempts for this input — refuting the claim's
"zero network calls and zero retry attempts" for every symbol violating
the six-decimal-digit pattern. -/
theorem c6_unicode_digit_code_reaches_network :
    ("²²²²²²").data.all Char.isDigit = false ∧
    validateFundCode "²²²²²²" = true ∧
    getCurrentData ⟨none, none⟩ none none raiseOracle 3 "²²²²²²" 1
      = (none, ⟨none, none⟩, 12, 3) := by
  refine ⟨by decide, by decide, rfl⟩

/-- C6 (corrected): a symbol rejected by the program's own format check —
`fund_code.isdigit() and len(fund_code) == 6`, where `isdigit` accepts any
Unicode digit character — is refused by `get_current_data` before the
retry loop: the result is "not found" (`None`), the bulk-list state is
untouched, zero network calls are made and zero attempts are consumed.
(The original claim, quantified over every string that is not six ASCII
decimal digits, fails on six-character strings of non-ASCII Unicode
digits, which pass the validation and do reach the network — see the
counterexample.) -/
theorem c6_invalid_code_no_network (st : EtfCacheState)
    (net : Option (List EtfRow)) (infoCache : Option FundInfo)
    (oracle : Nat → NetOutcome FundInfo) (maxRetries : Nat)
    (code : String) (now : ℚ)
    (hinv : validateFundCode code = false) :
    getCurrentData st net infoCache oracle maxRetries code now
      = (none, st, 0, 0) := by
  simp [getCurrentData, hinv]

/-- Witness for C6: `get_current_data("ABCDEF")` with every oracle primed
to answer — none is consulted. -/
theorem c6_invalid_code_no_network_witness :
    getCurrentData ⟨some [demoRow], some 0⟩ (some [demoRow])
        (some { name := "X", fund_type := "ETF" })
        (fun _ => NetOutcome.ok { name := "X", fund_type := "ETF" })
        3 "ABCDEF" 0
      = (none, ⟨some [demoRow], some 0⟩, 0, 0) :=
  c6_invalid_code_no_network ⟨some [demoRow], some 0⟩ (some [demoRow])
    (some { name := "X", fund_type := "ETF" })
    (fun _ => NetOutcome.ok { name := "X", fund_type := "ETF" })
    3 "ABCDEF" 0 (by decide)

/-- Helper: the retry loop never makes more network attempts than it has
loop iterations left. -/
theorem getFundInfoGo_calls_le (oracle : Nat → NetOutcome FundInfo)
    (m : Nat) :
    ∀ remaining attempt,
      (getFundInfoGo oracle m attempt remaining).2.1 ≤ remaining := by
  intro remaining
  induction remaining with
  | zero => intro attempt; simp [getFundInfoGo]
  | succ r ih =>
    intro attempt
    have h := ih (attempt + 1)
    rcases hg : getFundInfoGo oracle m (attempt + 1) r with ⟨r1, n1, s1⟩
    rw [hg] at h
    have h2 : n1 ≤ r := by simpa using h
    simp only [getFundInfoGo, hg]
    cases oracle attempt with
    | ok info => simp
    | empty => simpa using Nat.succ_le_succ h2
    | raise =>
      by_cases hlt : attempt + 1 < m <;> simp [hlt] <;> omega

/-- Helper: when every attempt raises, the loop makes exactly one network
attempt per remaining iteration and sleeps `2^attempt` between consecutive
attempts — and not after the last one. -/
theorem getFundInfoGo_all_raise (oracle : Nat → NetOutcome FundInfo)
    (m : Nat) (hraise : ∀ k, oracle k = NetOutcome.raise) :
    ∀ remaining attempt, attempt + remaining = m →
      getFundInfoGo oracle m attempt remaining
        = (none, remaining,
           (List.range' attempt (remaining - 1)).map (fun k => 2 ^ k)) := by
  intro remaining
  induction remaining with
  | zero => intro attempt _; simp [getFundInfoGo]
  | succ r ih =>
    intro attempt hsum
    have h := ih (attempt + 1) (by omega)
    simp only [getFundInfoGo, hraise attempt, h]
    cases r with
    | zero =>
      have hnot : ¬ (attempt + 1 < m) := by omega
      simp [hnot]
    | succ r2 =>
      have hlt : attempt + 1 < m := by omega
      simp only [if_pos hlt]
      simp [List.range'_succ]

/-- C7 (corrected): every network step of `get_fund_info` is attempted at
most `max_retries` times; when every attempt fails by raising, the sleeps
are exactly `2^0, 2^1, …, 2^(m-2)` — one between each pair of consecutive
attempts, none after the final one; and `_apply_rate_limit` separates any
network call from the previous one by at least the configured delay,
whatever the clock reads.  (The original claim's "after the k-th failed
attempt the caller sleeps 2^k" fails for attempts that fail with an *empty*
response, which the source retries immediately — see the
counterexample.) -/
theorem c7_retry_backoff_and_rate_limit (m : Nat) (code : String)
    (cache : Option FundInfo) (oracle : Nat → NetOutcome FundInfo)
    (last now delay : ℚ) :
    (getFundInfo cache code oracle m).2.1 ≤ m ∧
    ((∀ k, oracle k = NetOutcome.raise) → cache = none →
      validateFundCode code = true →
      getFundInfo cache code oracle m
        = (none, m, (List.range (m - 1)).map (fun k => 2 ^ k))) ∧
    delay ≤ (applyRateLimit last now delay).1 - last := by
  refine ⟨?_, ?_, ?_⟩
  · cases cache with
    | some i => simp [getFundInfo]
    | none =>
      by_cases hv : validateFundCode code
      · simpa [getFundInfo, hv] using getFundInfoGo_calls_le oracle m m 0
      · simp [getFundInfo, hv]
  · intro hraise hc hv
    subst hc
    have h := getFundInfoGo_all_raise oracle m hraise m 0 (by omega)
    simp [getFundInfo, hv, h, List.range_eq_range']
  · unfold applyRateLimit
    by_cases hlt : now - last < delay
    · simp only [if_pos hlt]
      linarith
    · simp only [if_neg hlt]
      push_neg at hlt
      linarith


/-- Witness for C7: three all-raising attempts sleep exactly `[1, 2]`, and
with a `0.1`-second delay the rate limiter keeps calls at least `0.1`
seconds apart. -/
theorem c7_retry_backoff_and_rate_limit_witness :
    getFundInfo none "510300" raiseOracle 3 = (none, 3, [1, 2]) ∧
    (1 : ℚ) / 10 ≤ (applyRateLimit 0 0 (1 / 10)).1 - 0 := by
  have h := c7_retry_backoff_and_rate_limit 3 "510300" none raiseOracle
    0 0 (1 / 10)
  constructor
  · rw [h.2.1 (fun k => rfl) rfl (by decide)]
    rfl
  · exact h.2.2


/-- C7 counterexample: with `max_retries = 3` and every attempt failing
with an empty response, all three attempts are consumed yet no backoff
sleep at all is performed — the source's `2**attempt` sleep sits only in
the exception handler — contradicting the claim that after the k-th failed
attempt the caller sleeps `2^k` (which would give `[1, 2]` here). -/
theorem c7_empty_failures_sleep_nothing :
    getFundInfo none "510300" emptyOracle 3 = (none, 3, []) ∧
    ([] : List ℕ) ≠ [2 ^ 0, 2 ^ 1] := by
  exact ⟨rfl, by decide⟩

/-- C10 (confirmed): for a valid six-digit symbol absent from the (fresh)
bulk list, when the metadata-only lookup succeeds on the first attempt,
`get_current_data` returns a degraded snapshot whose price fields and
volume are all zero, carrying the looked-up name — and that snapshot is
*equal* to the `FundData` the normal row path would build from a genuine
all-zero quote row, so no type or flag distinguishes them. -/
theorem c10_degraded_snapshot (rows : List EtfRow) (t0 now : ℚ)
    (oracle : Nat → NetOutcome FundInfo) (info : FundInfo) (m : Nat)
    (code : String)
    (hval : validateFundCode code = true)
    (habsent : lookupEtf rows code = none)
    (hfresh : now - t0 < etfCacheExpireHours)
    (hinfo : oracle 0 = NetOutcome.ok info) :
    getCurrentData ⟨some rows, some t0⟩ none none oracle (m + 1) code now
      = (some { code := code, name := info.name, current_price := 0,
                previous_close := 0, change_percent := 0, volume := 0,
                market_cap := none, currency := "CNY", last_update := now },
         ⟨some rows, some t0⟩, 1, 1) ∧
    fundDataOfRow code
        { code := code, name := info.name, price := 0, prevClose := 0,
          changePct := 0, volume := some 0 } now
      = { code := code, name := info.name, current_price := 0,
          previous_close := 0, change_percent := 0, volume := 0,
          market_cap := none, currency := "CNY", last_update := now } := by
  constructor
  · simp [getCurrentData, hval, getCurrentDataLoop, getCurrentDataAttempt,
      getEtfListCached, hfresh, habsent, getFundInfo, getFundInfoGo, hinfo]
  · rfl

/-- Witness for C10: symbol `999999`, an empty bulk list fetched at time 0,
read at time 1, metadata answering on the first try. -/
theorem c10_degraded_snapshot_witness :
    getCurrentData ⟨some [], some 0⟩ none none
        (fun _ => NetOutcome.ok { name := "演示基金", fund_type := "ETF" })
        3 "999999" 1
      = (some { code := "999999", name := "演示基金", current_price := 0,
                previous_close := 0, change_percent := 0, volume := 0,
                market_cap := none, currency := "CNY", last_update := 1 },
         ⟨some [], some 0⟩, 1, 1) :=
  (c10_degraded_snapshot [] 0 1
    (fun _ => NetOutcome.ok { name := "演示基金", fund_type := "ETF" })
    { name := "演示基金", fund_type := "ETF" } 2 "999999"
    (by decide) rfl (by norm_num [etfCacheExpireHours]) rfl).1

end Sora
